import Mathlib

/-!
Shallow embedding of the pagination, enrichment and request-building code of
the `secops` SDK (`src/secops/chronicle/rule_set.py` and
`src/secops/chronicle/data_export_v2.py`), together with theorems settling
the specification claims about it.

JSON values are modelled by the inductive `JVal`; Python dictionaries by
insertion-ordered association lists (`Jobj`), with `pyGet` / `pySet` /
`pyUpdate` mirroring `d.get`, `d[k] = v` and `d.update`.  HTTP traffic is
modelled by a finite script of responses consumed one per request; each
embedded operation returns both its Python-level outcome (normal return,
`ValueError`, `APIError`) and the trace of requests it issued, so that claims
about "how many requests were sent" and "which parameters each carried" are
directly statable.
-/

/-- A JSON value, as produced by `response.json()` and manipulated by the
Python code.  `null` doubles as Python's `None`. -/
inductive JVal where
  | null : JVal
  | bool (b : Bool) : JVal
  | int (n : Int) : JVal
  | str (s : String) : JVal
  | arr (xs : List JVal) : JVal
  | obj (fields : List (String × JVal)) : JVal

/-- A JSON object body: an insertion-ordered association list, modelling a
Python `dict`. -/
abbrev Jobj := List (String × JVal)

/-- Python truthiness (`if x:`) of a JSON value. -/
def JVal.truthy : JVal → Bool
  | .null => false
  | .bool b => b
  | .int n => n != 0
  | .str s => s != ""
  | .arr xs => !xs.isEmpty
  | .obj fs => !fs.isEmpty

/-- `d.get(k)` on a Python dict: the value under the first binding of `k`,
if any.  (Keys are unique in dicts built by the modelled code, so "first"
is immaterial there.) -/
def pyGet (d : Jobj) (k : String) : Option JVal :=
  (d.find? (fun p => p.1 == k)).map (·.2)

/-- `d.get(k, default)` on a Python dict. -/
def pyGetD (d : Jobj) (k : String) (v : JVal) : JVal :=
  (pyGet d k).getD v

/-- `k in d` on a Python dict. -/
def hasKey (d : Jobj) (k : String) : Bool :=
  (d.find? (fun p => p.1 == k)).isSome

/-- `d[k] = v` on a Python dict: replace the existing binding in place, else
append a new one (insertion order is preserved, as in CPython). -/
def pySet (d : Jobj) (k : String) (v : JVal) : Jobj :=
  if hasKey d k then d.map (fun p => if p.1 == k then (k, v) else p)
  else d ++ [(k, v)]

/-- `d.update(e)` on Python dicts. -/
def pyUpdate (d e : Jobj) : Jobj :=
  e.foldl (fun acc p => pySet acc p.1 p.2) d

/-- `v.get(k, default)` where `v` is expected to be a JSON object; a
non-object (a Python `AttributeError` path, unreachable for well-formed
server pages) yields the default. -/
def jGetD (v : JVal) (k : String) (default : JVal) : JVal :=
  match v with
  | .obj fs => pyGetD fs k default
  | _ => default

/-- An HTTP response as the embedded code observes it: status code, raw body
text, and the parsed JSON body (`response.json()`). -/
structure HttpResponse where
  status : Nat
  text : String
  json : JVal

/-- Python iteration of a JSON value, as consumed by `results.extend(...)`:
arrays yield their elements, strings their characters, objects their keys;
scalars are not iterable (`none` = Python `TypeError`). -/
def pyIter : JVal → Option (List JVal)
  | .arr xs => some xs
  | .str s => some (s.toList.map (fun c => .str (String.mk [c])))
  | .obj fs => some (fs.map (fun p => .str p.1))
  | _ => none

/-- Outcome of `_paginated_request`: a normal return of the accumulated
items, an `APIError`, a Python runtime error on a malformed body, or
exhaustion of the scripted response list (the model ran out of server
responses before the loop stopped). -/
inductive FetchOutcome where
  | ok (items : List JVal) : FetchOutcome
  | apiError (msg : String) : FetchOutcome
  | pyError : FetchOutcome
  | serverExhausted : FetchOutcome

/-- The query parameters of one page request, as built by
`_paginated_request` (`rule_set.py` line 53-57): `pageSize` is the caller's
`page_size` when truthy and `1000` otherwise; `pageToken` is added when the
current token is truthy; `extra_params`, when truthy, is `update`d in last. -/
def buildParams (page_size : Option JVal) (page_token : JVal)
    (extra_params : Option Jobj) : Jobj :=
  let params : Jobj :=
    [("pageSize", match page_size with
      | some v => if v.truthy then v else .int 1000
      | none => .int 1000)]
  let params := if page_token.truthy then pySet params "pageToken" page_token
    else params
  match extra_params with
  | some e => if e.isEmpty then params else pyUpdate params e
  | none => params

/-- The `while True:` loop of `_paginated_request` (`rule_set.py` lines
52-74), one scripted response consumed per iteration.  Returns the outcome
together with the list of issued request parameter dicts, in order. -/
def paginatedLoop (items_key : String) (page_size : Option JVal)
    (extra_params : Option Jobj) :
    List HttpResponse → JVal → List JVal → FetchOutcome × List Jobj
  | [], _, _ => (.serverExhausted, [])
  | r :: rest, page_token, results =>
    let params := buildParams page_size page_token extra_params
    if r.status ≠ 200 then
      (.apiError ("Failed to list " ++ items_key ++ ": " ++ r.text), [params])
    else if ¬ r.json.truthy then
      (.ok results, [params])
    else
      match r.json with
      | .obj data =>
        match pyIter (pyGetD data items_key (.arr [])) with
        | some curated_sets =>
          let results := results ++ curated_sets
          let page_token := pyGetD data "nextPageToken" .null
          if ¬ page_token.truthy then
            (.ok results, [params])
          else
            let next := paginatedLoop items_key page_size extra_params rest
              page_token results
            (next.1, params :: next.2)
        | none => (.pyError, [params])
      | _ => (.pyError, [params])

/-- `_paginated_request(client, path, items_key, page_size=…,
start_page_token=…, extra_params=…)`, with the server abstracted as the
list of responses it returns to the successive page requests. -/
def paginated_request (items_key : String) (page_size : Option JVal)
    (start_page_token : JVal) (extra_params : Option Jobj)
    (responses : List HttpResponse) : FetchOutcome × List Jobj :=
  paginatedLoop items_key page_size extra_params responses start_page_token []

/-- A well-formed successful server page: items under `items_key`, and a
`nextPageToken` entry when a continuation token is supplied. -/
def mkPage (items_key : String) (items : List JVal) (tok : Option String) :
    HttpResponse :=
  { status := 200, text := "",
    json := .obj ([(items_key, .arr items)] ++
      (match tok with | some t => [("nextPageToken", .str t)] | none => [])) }

/-- A successful page carrying the continuation token `"t"`. -/
def mkPageTok (items_key : String) (items : List JVal) : HttpResponse :=
  mkPage items_key items (some "t")

/-- The response script of a server holding the given pages in order: every
page but the last carries a continuation token, the last does not. -/
def mkChain (items_key : String) (pages : List (List JVal)) :
    List HttpResponse :=
  pages.dropLast.map (mkPageTok items_key) ++
    (match pages.getLast? with
     | some last => [mkPage items_key last none]
     | none => [])

/-- Python `x == s` comparison against a `str` value `s`: true exactly when
`x` is an equal string (comparing a non-string to a string yields `False`,
never an error). -/
def JVal.eqStr : JVal → String → Bool
  | .str t, s => t == s
  | _, _ => false

/-- Python `s.rstrip("/")`: remove every trailing `/`. -/
def rstripSlash (s : String) : String :=
  String.mk ((s.toList.reverse.dropWhile (fun c => c = '/')).reverse)

/-- Whether the pattern `pat` begins the character list `s`. -/
def charsLeads : List Char → List Char → Bool
  | [], _ => true
  | _ :: _, [] => false
  | c :: cs, d :: ds => c == d && charsLeads cs ds

/-- Python `s.startswith(pat)`. -/
def pyStartswith (s pat : String) : Bool :=
  charsLeads pat.toList s.toList

/-- Python `c in s` for a single character. -/
def pyContainsChar (s : String) (c : Char) : Bool :=
  s.toList.contains c

/-- The characters of `s` before the first occurrence of the non-empty
separator `sep` (all of `s` when `sep` does not occur). -/
def cutAtFirst (sep : List Char) : List Char → List Char
  | [] => []
  | c :: cs => if charsLeads sep (c :: cs) then [] else c :: cutAtFirst sep cs

/-- Python `s.split(sep)[0]` for a non-empty separator: the prefix of `s`
before the first occurrence of `sep` (all of `s` when `sep` does not
occur; Python raises on an empty separator, which no modelled call site
passes). -/
def splitFirst (s sep : String) : String :=
  String.mk (cutAtFirst sep.toList s.toList)

/-- `rule_set.py` lines 272-276: derive the parent rule-set name of a
deployment by cutting its `name` at the `"curatedRuleSetDeployment"`
segment and trimming the trailing `/`. -/
def deriveRuleSetId (name : String) : String :=
  rstripSlash (splitFirst name "curatedRuleSetDeployment")

/-- `d.get(k, "")` where the value is used as a string. A non-string value
under `k` (which would make the subsequent string method raise a Python
`TypeError`; never produced by the modelled server schema) maps to the
default. -/
def getStrD (d : Jobj) (k : String) (default : String) : String :=
  match pyGet d k with
  | some (.str s) => s
  | _ => default

/-- The enrichment pass of `list_curated_rule_set_deployments`
(`rule_set.py` lines 271-279) on one deployment object: derive the parent
rule-set name, then scan `all_rule_sets`, copying `displayName` from every
rule set whose `name` equals the derived key (the last match wins, exactly
as repeated assignment does). -/
def enrichObj (all_rule_sets : List JVal) (d : Jobj) : Jobj :=
  let rule_set_id := deriveRuleSetId (getStrD d "name" "")
  all_rule_sets.foldl
    (fun d rule_set =>
      if (jGetD rule_set "name" (.str "")).eqStr rule_set_id then
        pySet d "displayName" (jGetD rule_set "displayName" (.str ""))
      else d) d

/-- Enrichment of one deployment item; a non-object item (a Python
`AttributeError` path, never produced by a well-formed server) is left
unchanged. -/
def enrichDeployment (all_rule_sets : List JVal) (d : JVal) : JVal :=
  match d with
  | .obj fs => .obj (enrichObj all_rule_sets fs)
  | v => v

/-- Truthiness of `deployment.get("enabled", False)`. -/
def enabledTruthy (d : JVal) : Bool :=
  (jGetD d "enabled" (.bool false)).truthy

/-- Truthiness of `deployment.get("alerting", False)`. -/
def alertingTruthy (d : JVal) : Bool :=
  (jGetD d "alerting" (.bool false)).truthy

/-- `list_curated_rule_set_deployments` (`rule_set.py` lines 238-295): fetch
all deployments (with the caller's `page_size` / `page_token`), fetch all
rule sets (with defaults), enrich each deployment with the matching rule
set's `displayName`, then apply the `only_enabled` and `only_alerting`
filters in that order.  The two endpoints' servers are given as two
response scripts. -/
def list_curated_rule_set_deployments (page_size : Option JVal)
    (page_token : JVal) (only_enabled only_alerting : Bool)
    (deploymentResponses ruleSetResponses : List HttpResponse) :
    FetchOutcome :=
  match (paginated_request "curatedRuleSetDeployments" page_size page_token
      none deploymentResponses).1 with
  | .ok rule_set_deployments =>
    match (paginated_request "curatedRuleSets" none .null none
        ruleSetResponses).1 with
    | .ok all_rule_sets =>
      let rule_set_deployments :=
        rule_set_deployments.map (enrichDeployment all_rule_sets)
      let rule_set_deployments :=
        if only_enabled then rule_set_deployments.filter enabledTruthy
        else rule_set_deployments
      let rule_set_deployments :=
        if only_alerting then rule_set_deployments.filter alertingTruthy
        else rule_set_deployments
      .ok rule_set_deployments
    | other => other
  | other => other

/-- The client configuration fields the modelled functions interpolate into
URLs, resource names and log-type paths. -/
structure Client where
  base_url : String
  instance_id : String
  project_id : String
  region : String
  customer_id : String

/-- Outcome of a non-paginated operation: a normal return, a `ValueError`
(parameter validation) or an `APIError`. -/
inductive PyOutcome (α : Type) where
  | ok (a : α) : PyOutcome α
  | valueError (msg : String) : PyOutcome α
  | apiError (msg : String) : PyOutcome α

/-- Whether the outcome is a normal return. -/
def PyOutcome.isOk : PyOutcome α → Bool
  | .ok _ => true
  | _ => false

/-- Whether the outcome is a `ValueError`. -/
def PyOutcome.isValueError : PyOutcome α → Bool
  | .valueError _ => true
  | _ => false

/-- Whether the outcome is an `APIError`. -/
def PyOutcome.isApiError : PyOutcome α → Bool
  | .apiError _ => true
  | _ => false

/-- The required fields of each item of a batch deployment update
(`rule_set.py` line 389). -/
def required_fields : List String :=
  ["category_id", "rule_set_id", "precision", "enabled"]

/-- Python `str(v)` for the scalar values the modelled code interpolates
into f-strings; container renderings are abbreviated (no claim depends on
them, the modelled call sites pass identifier strings). -/
def pyStr : JVal → String
  | .null => "None"
  | .bool b => if b then "True" else "False"
  | .int n => toString n
  | .str s => s
  | .arr _ => "[...]"
  | .obj _ => "\x7b...\x7d"

/-- Python `repr` of a list of strings, as interpolated into the
missing-fields `ValueError` message. -/
def pyReprStrList (xs : List String) : String :=
  "[" ++ String.intercalate ", " (xs.map (fun s => "\x27" ++ s ++ "\x27"))
    ++ "]"

/-- `make_deployment_name` (`rule_set.py` lines 377-382). -/
def make_deployment_name (c : Client)
    (category_id rule_set_id precision : JVal) : String :=
  c.instance_id ++ "/curatedRuleSetCategories/" ++ pyStr category_id ++
    "/curatedRuleSets/" ++ pyStr rule_set_id ++
    "/curatedRuleSetDeployments/" ++ pyStr precision

/-- The fields of `required_fields` missing from a deployment item
(`rule_set.py` lines 390-392), in `required_fields` order. -/
def missingFields (deployment : Jobj) : List String :=
  required_fields.filter (fun f => !(hasKey deployment f))

/-- The request-building loop of `batch_update_curated_rule_set_deployments`
(`rule_set.py` lines 385-420): validate each item in order, raising a
`ValueError` naming the missing fields of the first invalid item, otherwise
emit one request item per input. -/
def buildRequestItems (c : Client) : List Jobj → Except String (List JVal)
  | [] => .ok []
  | deployment :: rest =>
    let missing := missingFields deployment
    if !missing.isEmpty then
      .error ("Deployment missing required fields: " ++ pyReprStrList missing)
    else
      let category_id := pyGetD deployment "category_id" .null
      let rule_set_id := pyGetD deployment "rule_set_id" .null
      let precision := pyGetD deployment "precision" .null
      let enabled := pyGetD deployment "enabled" .null
      let alerting := pyGetD deployment "alerting" (.bool false)
      let request_item : JVal := .obj
        [("curated_rule_set_deployment", .obj
          [("name", .str (make_deployment_name c category_id rule_set_id
            precision)),
           ("enabled", enabled),
           ("alerting", alerting)]),
         ("update_mask", .obj [("paths", .arr [.str "alerting",
           .str "enabled"])])]
      match buildRequestItems c rest with
      | .error m => .error m
      | .ok items => .ok (request_item :: items)

/-- `batch_update_curated_rule_set_deployments` (`rule_set.py` lines
350-438).  The second component is the JSON payload actually POSTed
(`none` when the `ValueError` aborted before any request was issued). -/
def batch_update_curated_rule_set_deployments (c : Client)
    (deployments : List Jobj) (resp : HttpResponse) :
    PyOutcome JVal × Option Jobj :=
  match buildRequestItems c deployments with
  | .error msg => (.valueError msg, none)
  | .ok request_items =>
    let json_data : Jobj :=
      [("parent", .str (c.instance_id ++
        "/curatedRuleSetCategories/-/curatedRuleSets/-")),
       ("requests", .arr request_items)]
    if resp.status ≠ 200 then
      (.apiError ("Failed to batch update rule set deployments: " ++
        resp.text), some json_data)
    else
      (.ok resp.json, some json_data)

/-- Abstract model of `datetime` values as totally ordered timestamps; the
`strftime("%Y-%m-%dT%H:%M:%S.%fZ")` rendering is abstracted to an injective
textual form, which no claim constrains. -/
def strftimeZ (t : Int) : String := "ts:" ++ toString t

/-- The fully-qualified log-type path built by `create_data_export_v2`
(`data_export_v2.py` lines 165-169) for a bare log-type identifier. -/
def formatLogType (c : Client) (log_type : String) : String :=
  "projects/" ++ c.project_id ++ "/locations/" ++ c.region ++
    "/instances/" ++ c.customer_id ++ "/logTypes/" ++ log_type

/-- `create_data_export_v2` (`data_export_v2.py` lines 73-187): the five
validations in code order, then the payload build and the POST.  The second
component is the payload actually POSTed (`none` when validation raised
first).  Note lines 185-187 of the source return `response.json()` without
any status check, which this model reproduces. -/
def create_data_export_v2 (c : Client) (gcs_bucket : String)
    (start_time end_time : Int) (log_types : List String)
    (export_all_logs : Bool) (resp : HttpResponse) :
    PyOutcome JVal × Option Jobj :=
  if gcs_bucket = "" then
    (.valueError "GCS bucket must be provided", none)
  else if ¬ pyStartswith gcs_bucket "projects/" then
    (.valueError
      "GCS bucket must be in format: projects/\x7bproject\x7d/buckets/\x7bbucket\x7d",
      none)
  else if end_time ≤ start_time then
    (.valueError "End time must be after start time", none)
  else if ¬ export_all_logs ∧ log_types.length = 0 then
    (.valueError
      "Either log_type must be specified or export_all_logs must be True",
      none)
  else if export_all_logs ∧ log_types.length ≠ 0 then
    (.valueError "Cannot specify both log_type and export_all_logs=True",
      none)
  else
    let payload : Jobj :=
      [("startTime", .str (strftimeZ start_time)),
       ("endTime", .str (strftimeZ end_time)),
       ("gcsBucket", .str gcs_bucket)]
    let payload_log_types := log_types.map (fun lt =>
      if ¬ (pyContainsChar lt '/') then formatLogType c lt else lt)
    let payload := pySet payload "includeLogTypes"
      (.arr (payload_log_types.map .str))
    let payload :=
      if export_all_logs then pySet payload "includeLogTypes" (.arr [])
      else payload
    (.ok resp.json, some payload)

/-- The tail of `update_data_export_v2` after the bucket handling
(`data_export_v2.py` lines 238-257): fold in `log_types`, require a
non-empty payload, then PATCH and check the status. -/
def updateDataExportFinish (payload : Jobj) (update_mask : List String)
    (log_types : Option (List String)) (resp : HttpResponse) :
    PyOutcome JVal × Option (Jobj × List String) :=
  let st := match log_types with
    | some lts => (pySet payload "includeLogTypes" (.arr (lts.map .str)),
        update_mask ++ ["includeLogTypes"])
    | none => (payload, update_mask)
  if st.1.isEmpty then
    (.valueError "At least one field to update must be provided.", none)
  else if resp.status ≠ 200 then
    (.apiError ("Failed to update data export: " ++ resp.text), some st)
  else
    (.ok resp.json, some st)

/-- `update_data_export_v2` (`data_export_v2.py` lines 190-257): build the
payload and update mask from the truthy arguments in code order (`datetime`
arguments are always truthy when present; an empty-string bucket is falsy
and skipped; `log_types` is tested against `None`), validating the bucket
prefix eagerly.  The second component is the (payload, update-mask) pair of
the PATCH actually issued (`none` when a `ValueError` aborted first). -/
def update_data_export_v2 (data_export_id : String)
    (start_time end_time : Option Int) (gcs_bucket : Option String)
    (log_types : Option (List String)) (resp : HttpResponse) :
    PyOutcome JVal × Option (Jobj × List String) :=
  let payload : Jobj := []
  let update_mask : List String := []
  let st := match start_time with
    | some t => (pySet payload "startTime" (.str (strftimeZ t)),
        update_mask ++ ["startTime"])
    | none => (payload, update_mask)
  let st := match end_time with
    | some t => (pySet st.1 "endTime" (.str (strftimeZ t)),
        st.2 ++ ["endTime"])
    | none => st
  match gcs_bucket with
  | some b =>
    if b ≠ "" then
      if ¬ pyStartswith b "projects/" then
        (.valueError
          "GCS bucket must be in format: projects/\x7bproject\x7d/buckets/\x7bbucket\x7d",
          none)
      else
        updateDataExportFinish (pySet st.1 "gcsBucket" (.str b))
          (st.2 ++ ["gcsBucket"]) log_types resp
    else updateDataExportFinish st.1 st.2 log_types resp
  | none => updateDataExportFinish st.1 st.2 log_types resp

/-- The field names `update_data_export_v2` treats as supplied, in code
order: present `start_time` / `end_time`, a present non-empty
`gcs_bucket`, a present (possibly empty) `log_types`. -/
def suppliedFields (start_time end_time : Option Int)
    (gcs_bucket : Option String) (log_types : Option (List String)) :
    List String :=
  (if start_time.isSome then ["startTime"] else []) ++
  (if end_time.isSome then ["endTime"] else []) ++
  (match gcs_bucket with
   | some b => if b ≠ "" then ["gcsBucket"] else []
   | none => []) ++
  (if log_types.isSome then ["includeLogTypes"] else [])

theorem find?_keyMap_self (d : Jobj) (k : String) (v : JVal)
    (h : (d.find? (fun p => p.1 == k)).isSome) :
    (d.map (fun p => if p.1 == k then (k, v) else p)).find?
      (fun p => p.1 == k) = some (k, v) := by
  induction d with
  | nil => simp at h
  | cons p rest ih =>
    by_cases hp : p.1 == k
    · have hpk : p.1 = k := by simpa using hp
      simp [List.find?_cons, hpk]
    · simp only [List.find?_cons, hp] at h
      have hpk : ¬ p.1 = k := by simpa using hp
      simp only [List.map_cons, List.find?_cons, hpk, if_false, ite_false]
      simpa [hp, hpk] using ih (by simpa using h)

theorem pyGet_pySet_self (d : Jobj) (k : String) (v : JVal) :
    pyGet (pySet d k v) k = some v := by
  unfold pySet
  by_cases h : hasKey d k
  · rw [if_pos h]
    unfold pyGet
    rw [find?_keyMap_self d k v (by unfold hasKey at h; simpa using h)]
    rfl
  · rw [if_neg h]
    unfold pyGet
    rw [List.find?_append]
    have hnone : d.find? (fun p => p.1 == k) = none := by
      cases hfind : d.find? (fun p => p.1 == k) with
      | none => rfl
      | some val => exact absurd (by unfold hasKey; simp [hfind]) h
    simp [hnone, List.find?]

theorem paginatedLoop_cons_mkPage_none (k : String) (hk : k ≠ "nextPageToken")
    (ps : Option JVal) (items : List JVal) (rest : List HttpResponse)
    (t : JVal) (acc : List JVal) :
    paginatedLoop k ps none (mkPage k items none :: rest) t acc
      = (.ok (acc ++ items), [buildParams ps t none]) := by
  simp [paginatedLoop, mkPage, JVal.truthy, pyGetD, pyGet, pyIter,
    List.find?_cons, beq_false_of_ne hk]

theorem paginatedLoop_cons_mkPage_tok (k : String) (hk : k ≠ "nextPageToken")
    (ps : Option JVal) (items : List JVal) (tok : String) (htok : tok ≠ "")
    (rest : List HttpResponse) (t : JVal) (acc : List JVal) :
    paginatedLoop k ps none (mkPage k items (some tok) :: rest) t acc
      = ((paginatedLoop k ps none rest (.str tok) (acc ++ items)).1,
        buildParams ps t none ::
          (paginatedLoop k ps none rest (.str tok) (acc ++ items)).2) := by
  simp [paginatedLoop, mkPage, JVal.truthy, pyGetD, pyGet, pyIter,
    List.find?_cons, beq_false_of_ne hk, htok]

theorem paginatedLoop_indep_page_size (k : String) (ps ps' : Option JVal)
    (extra : Option Jobj) (rs : List HttpResponse) (t : JVal)
    (acc : List JVal) :
    (paginatedLoop k ps extra rs t acc).1
        = (paginatedLoop k ps' extra rs t acc).1
    ∧ (paginatedLoop k ps extra rs t acc).2.length
        = (paginatedLoop k ps' extra rs t acc).2.length := by
  induction rs generalizing t acc with
  | nil => exact ⟨rfl, rfl⟩
  | cons r rest ih =>
    simp only [paginatedLoop]
    split
    · exact ⟨rfl, rfl⟩
    · split
      · exact ⟨rfl, rfl⟩
      · split
        · split
          · split
            · exact ⟨rfl, rfl⟩
            · rename_i data _ curated _ tok _
              refine ⟨(ih _ _).1, ?_⟩
              simpa using (ih _ _).2
          · exact ⟨rfl, rfl⟩
        · exact ⟨rfl, rfl⟩

theorem paginatedLoop_trace_head (k : String) (ps : Option JVal)
    (extra : Option Jobj) (r : HttpResponse) (rest : List HttpResponse)
    (t : JVal) (acc : List JVal) :
    (paginatedLoop k ps extra (r :: rest) t acc).2.head?
      = some (buildParams ps t extra) := by
  simp only [paginatedLoop]
  split
  · rfl
  · split
    · rfl
    · split
      · split
        · split
          · rfl
          · rfl
        · rfl
      · rfl

theorem paginatedLoop_trace_form (k : String) (ps : Option JVal)
    (extra : Option Jobj) (rs : List HttpResponse) (t : JVal)
    (acc : List JVal) :
    ∀ req ∈ (paginatedLoop k ps extra rs t acc).2,
      ∃ tok, req = buildParams ps tok extra := by
  induction rs generalizing t acc with
  | nil => intro req h; simp [paginatedLoop] at h
  | cons r rest ih =>
    intro req hreq
    simp only [paginatedLoop] at hreq
    split at hreq
    · simp at hreq; exact ⟨t, hreq⟩
    · split at hreq
      · simp at hreq; exact ⟨t, hreq⟩
      · split at hreq
        · split at hreq
          · split at hreq
            · simp at hreq; exact ⟨t, hreq⟩
            · simp at hreq
              rcases hreq with h | h
              · exact ⟨t, h⟩
              · exact ih _ _ req h
          · simp at hreq; exact ⟨t, hreq⟩
        · simp at hreq; exact ⟨t, hreq⟩

/-- The `pageSize` value `_paginated_request` sends: the caller's
`page_size` verbatim when truthy, else the server maximum `1000`
(`rule_set.py` line 53). -/
def defaultedPageSize (ps : Option JVal) : JVal :=
  match ps with
  | none => .int 1000
  | some v => if v.truthy then v else .int 1000

theorem buildParams_pageSize (ps : Option JVal) (t : JVal) :
    pyGet (buildParams ps t none) "pageSize"
      = some (defaultedPageSize ps) := by
  unfold defaultedPageSize
  unfold buildParams
  by_cases ht : t.truthy = true <;> cases ps <;>
    simp [pySet, hasKey, pyGet, List.find?_cons, ht]

theorem buildParams_pageToken (ps : Option JVal) (t : JVal) :
    pyGet (buildParams ps t none) "pageToken"
      = if t.truthy then some t else none := by
  unfold buildParams
  by_cases ht : t.truthy = true <;> cases ps <;>
    simp [pySet, hasKey, pyGet, List.find?_cons, ht]

theorem mkChain_singleton (k : String) (items : List JVal) :
    mkChain k [items] = [mkPage k items none] := by
  simp [mkChain]

theorem mkChain_cons_cons (k : String) (x y : List JVal)
    (ys : List (List JVal)) :
    mkChain k (x :: y :: ys) = mkPageTok k x :: mkChain k (y :: ys) := by
  simp [mkChain, List.getLast?_cons_cons]

theorem paginatedLoop_mkChain (k : String) (hk : k ≠ "nextPageToken")
    (ps : Option JVal) (x : List JVal) (xs : List (List JVal)) (t : JVal)
    (acc : List JVal) :
    (paginatedLoop k ps none (mkChain k (x :: xs)) t acc).1
        = .ok (acc ++ (x :: xs).flatten)
    ∧ (paginatedLoop k ps none (mkChain k (x :: xs)) t acc).2.length
        = (x :: xs).length := by
  induction xs generalizing x t acc with
  | nil =>
    rw [mkChain_singleton, paginatedLoop_cons_mkPage_none k hk]
    simp
  | cons y ys ih =>
    rw [mkChain_cons_cons,
      show mkPageTok k x = mkPage k x (some "t") from rfl,
      paginatedLoop_cons_mkPage_tok k hk ps x "t" (by simp)]
    refine ⟨?_, ?_⟩
    · rw [(ih y (.str "t") (acc ++ x)).1]
      simp
    · simp [(ih y (.str "t") (acc ++ x)).2]

theorem paginatedLoop_tokPages (k : String) (hk : k ≠ "nextPageToken")
    (ps : Option JVal) (pages : List (List JVal)) (rest : List HttpResponse)
    (t : JVal) (acc : List JVal) :
    (paginatedLoop k ps none (pages.map (mkPageTok k) ++ rest) t acc).1
      = (paginatedLoop k ps none rest
          (if pages.isEmpty then t else .str "t") (acc ++ pages.flatten)).1
    ∧ (paginatedLoop k ps none (pages.map (mkPageTok k) ++ rest) t acc).2.length
      = pages.length + (paginatedLoop k ps none rest
          (if pages.isEmpty then t else .str "t") (acc ++ pages.flatten)).2.length := by
  induction pages generalizing t acc with
  | nil => simp
  | cons x xs ih =>
    simp only [List.map_cons, List.cons_append]
    rw [show mkPageTok k x = mkPage k x (some "t") from rfl,
      paginatedLoop_cons_mkPage_tok k hk ps x "t" (by simp)]
    have h1 := (ih (.str "t") (acc ++ x)).1
    have h2 := (ih (.str "t") (acc ++ x)).2
    rw [ite_self] at h1 h2
    refine ⟨?_, ?_⟩
    · rw [h1]; simp
    · simp [h2, Nat.add_assoc, Nat.add_comm 1]

theorem paginatedLoop_emptyBody (k : String) (ps : Option JVal)
    (extra : Option Jobj) (r : HttpResponse) (rest : List HttpResponse)
    (t : JVal) (acc : List JVal)
    (hr : r.status = 200) (hj : r.json.truthy = false) :
    paginatedLoop k ps extra (r :: rest) t acc
      = (.ok acc, [buildParams ps t extra]) := by
  simp [paginatedLoop, hr, hj]

/-- **C3**: for every sequence of successful server pages holding items
split across `K` pages, `_paginated_request` with `page_size` omitted
issues exactly `K` page requests and returns all items concatenated in
server order (no de-duplication, no truncation). -/
theorem C3_default_fetch_exhaustive (items_key : String)
    (hk : items_key ≠ "nextPageToken") (pages : List (List JVal))
    (hp : pages ≠ []) :
    (paginated_request items_key none .null none (mkChain items_key pages)).1
        = .ok pages.flatten
    ∧ (paginated_request items_key none .null none
        (mkChain items_key pages)).2.length = pages.length := by
  match pages, hp with
  | x :: xs, _ =>
    have h := paginatedLoop_mkChain items_key hk none x xs .null []
    simpa [paginated_request] using h

/-- Witness for C3: a two-page server with three items in all; the fetch
returns the three items in order and issues two requests. -/
theorem C3_witness :
    (paginated_request "items" none .null none
        (mkChain "items" [[.int 1, .int 2], [.int 3]])).1
        = .ok [.int 1, .int 2, .int 3]
    ∧ (paginated_request "items" none .null none
        (mkChain "items" [[.int 1, .int 2], [.int 3]])).2.length = 2 := by
  have h := C3_default_fetch_exhaustive "items" (by decide)
    [[.int 1, .int 2], [.int 3]] (by simp)
  simpa using h

/-- **C1 (counterexample)**: with an explicit `page_size` of 5 and a server
whose first page carries a `nextPageToken`, `_paginated_request` issues two
requests and returns both pages' items — not the claimed single page. -/
theorem C1_counterexample :
    (paginated_request "items" (some (.int 5)) .null none
        (mkChain "items" [[.int 1], [.int 2]])).2.length = 2
    ∧ (paginated_request "items" (some (.int 5)) .null none
        (mkChain "items" [[.int 1], [.int 2]])).1 = .ok [.int 1, .int 2] :=
  ⟨rfl, rfl⟩

/-- **C1 (amended)**: supplying an explicit (truthy) `page_size` does not
switch `_paginated_request` into a single-page mode: the outcome and the
number of requests are identical to the default mode; the explicit value is
carried verbatim as the `pageSize` parameter of every request; and the
caller-supplied start token is the cursor of the first request (present
exactly when truthy). -/
theorem C1_amended_page_size_not_single_page (items_key : String)
    (v : JVal) (hv : v.truthy = true) (t : JVal) (rs : List HttpResponse) :
    ((paginated_request items_key (some v) t none rs).1
        = (paginated_request items_key none t none rs).1)
    ∧ ((paginated_request items_key (some v) t none rs).2.length
        = (paginated_request items_key none t none rs).2.length)
    ∧ (∀ req ∈ (paginated_request items_key (some v) t none rs).2,
        pyGet req "pageSize" = some v)
    ∧ (∀ req, (paginated_request items_key (some v) t none rs).2.head?
          = some req →
        pyGet req "pageToken" = if t.truthy then some t else none) := by
  refine ⟨(paginatedLoop_indep_page_size items_key (some v) none none rs t []).1,
    (paginatedLoop_indep_page_size items_key (some v) none none rs t []).2,
    ?_, ?_⟩
  · intro req hreq
    obtain ⟨tok, rfl⟩ :=
      paginatedLoop_trace_form items_key (some v) none rs t [] req hreq
    rw [buildParams_pageSize]
    simp [defaultedPageSize, hv]
  · intro req hreq
    cases rs with
    | nil => simp [paginated_request, paginatedLoop] at hreq
    | cons r rest =>
      rw [paginated_request, paginatedLoop_trace_head] at hreq
      cases hreq
      exact buildParams_pageToken (some v) t

/-- Witness for C1 (amended): instantiated at a concrete one-page server
with `page_size = 7` and start token `"s"`. -/
theorem C1_amended_witness :
    ((paginated_request "items" (some (.int 7)) (.str "s") none
        [mkPage "items" [.int 1] none]).1
      = (paginated_request "items" none (.str "s") none
        [mkPage "items" [.int 1] none]).1)
    ∧ (∀ req ∈ (paginated_request "items" (some (.int 7)) (.str "s") none
        [mkPage "items" [.int 1] none]).2,
        pyGet req "pageSize" = some (.int 7)) := by
  have h := C1_amended_page_size_not_single_page "items" (.int 7) (by decide)
    (.str "s") [mkPage "items" [.int 1] none]
  exact ⟨h.1, h.2.2.1⟩

/-- **C8**: a page request answered with a successful status but an
empty/falsy JSON body terminates the fetch, returning the items accumulated
from the earlier pages without raising. -/
theorem C8_empty_body_returns_accumulated (items_key : String)
    (hk : items_key ≠ "nextPageToken") (pages : List (List JVal))
    (r : HttpResponse) (hr : r.status = 200) (hj : r.json.truthy = false) :
    (paginated_request items_key none .null none
        (pages.map (mkPageTok items_key) ++ [r])).1 = .ok pages.flatten
    ∧ (paginated_request items_key none .null none
        (pages.map (mkPageTok items_key) ++ [r])).2.length
        = pages.length + 1 := by
  have h := paginatedLoop_tokPages items_key hk none pages [r] .null []
  have hstep := paginatedLoop_emptyBody items_key none none r []
    (if pages.isEmpty then JVal.null else .str "t") ([] ++ pages.flatten)
    hr hj
  rw [hstep] at h
  exact ⟨by simpa [paginated_request] using h.1,
    by simpa [paginated_request] using h.2⟩

/-- Witness for C8: one full page then a `200` response with a `null` body;
the fetch returns the first page's item and issues two requests. -/
theorem C8_witness :
    (paginated_request "items" none .null none
        ([[JVal.int 1]].map (mkPageTok "items") ++
          [{ status := 200, text := "", json := .null }])).1
        = .ok [.int 1]
    ∧ (paginated_request "items" none .null none
        ([[JVal.int 1]].map (mkPageTok "items") ++
          [{ status := 200, text := "", json := .null }])).2.length = 2 := by
  have h := C8_empty_body_returns_accumulated "items" (by decide)
    [[JVal.int 1]] { status := 200, text := "", json := .null } rfl rfl
  simpa using h

/-- **C10**: every page request issued by `_paginated_request` carries a
`pageSize` equal to the caller's `page_size` verbatim when that argument is
truthy, and `1000` (the server maximum) when it is falsy (`None`, `0` or
`""`) — a falsy `page_size` is treated as "use the default", never as a
request for zero-item pages. -/
theorem C10_page_size_truthiness (items_key : String) (ps : Option JVal)
    (t : JVal) (rs : List HttpResponse) (req : Jobj)
    (hreq : req ∈ (paginated_request items_key ps t none rs).2) :
    pyGet req "pageSize" = some (defaultedPageSize ps) := by
  obtain ⟨tok, rfl⟩ :=
    paginatedLoop_trace_form items_key ps none rs t [] req hreq
  exact buildParams_pageSize ps tok

/-- Witness for C10: with `page_size = 0` the single issued request carries
`pageSize = 1000`. -/
theorem C10_witness :
    pyGet [("pageSize", JVal.int 1000)] "pageSize" = some (.int 1000) :=
  C10_page_size_truthiness "items" (some (.int 0)) .null
    [mkPage "items" [] none] [("pageSize", JVal.int 1000)]
    (List.mem_singleton.mpr rfl)

/-- **C4**: in the deployment-list enrichment, the `displayName` of an
enriched deployment object is determined by deriving the parent key from
the object's `name` (cutting at the `"curatedRuleSetDeployment"` segment
and trimming the trailing `/`) and scanning the rule sets for an exact
name match: if matches exist, the (last) matching rule set's `displayName`
is copied onto the item; if none matches, the `displayName` field is
exactly what it was before — in particular it remains absent when it was
absent. -/
theorem C4_enrichment_displayName (all_rule_sets : List JVal) (d : Jobj) :
    pyGet (enrichObj all_rule_sets d) "displayName"
      = match (all_rule_sets.filter (fun rs =>
          (jGetD rs "name" (.str "")).eqStr
            (deriveRuleSetId (getStrD d "name" "")))).getLast? with
        | some rs => some (jGetD rs "displayName" (.str ""))
        | none => pyGet d "displayName" := by
  induction all_rule_sets using List.reverseRecOn with
  | nil => simp [enrichObj]
  | append_singleton l rs ih =>
    simp only [enrichObj, List.foldl_append, List.foldl_cons, List.foldl_nil]
      at ih ⊢
    by_cases hm : (jGetD rs "name" (.str "")).eqStr
        (deriveRuleSetId (getStrD d "name" "")) = true
    · rw [if_pos hm, pyGet_pySet_self, List.filter_append]
      simp [hm]
    · rw [if_neg hm, ih, List.filter_append]
      simp [hm]

/-- **C9**: listing deployments with both boolean filters enabled returns
exactly the enriched items on which both `enabled` and `alerting` are
truthy; this equals applying the two single-field truthiness filters to the
unfiltered (but enriched) listing in either order — filtering happens only
after enrichment, so it does not change which items get enriched. -/
theorem C9_filters_after_enrichment (ps : Option JVal) (t : JVal)
    (dR rR : List HttpResponse) (items : List JVal)
    (h : list_curated_rule_set_deployments ps t false false dR rR
      = .ok items) :
    list_curated_rule_set_deployments ps t true true dR rR
        = .ok (items.filter (fun d => enabledTruthy d && alertingTruthy d))
    ∧ list_curated_rule_set_deployments ps t true true dR rR
        = .ok ((items.filter enabledTruthy).filter alertingTruthy)
    ∧ list_curated_rule_set_deployments ps t true true dR rR
        = .ok ((items.filter alertingTruthy).filter enabledTruthy) := by
  unfold list_curated_rule_set_deployments at h ⊢
  cases hd : (paginated_request "curatedRuleSetDeployments" ps t none dR).1
    with
  | ok deps =>
    rw [hd] at h
    cases hr : (paginated_request "curatedRuleSets" none .null none rR).1
      with
    | ok rsets =>
      rw [hr] at h
      simp only [ite_true, ite_false] at h ⊢
      have hitems : items = deps.map (enrichDeployment rsets) := by
        cases h; rfl
      subst hitems
      refine ⟨?_, ?_, ?_⟩
      · rw [List.filter_filter]
        congr 1
        exact List.filter_congr (fun a _ => Bool.and_comm _ _)
      · rw [List.filter_filter]
      · rw [List.filter_filter]
        congr 1
        rw [List.filter_filter]
        exact List.filter_congr (fun a _ => Bool.and_comm _ _)
    | apiError m => rw [hr] at h; simp at h
    | pyError => rw [hr] at h; simp at h
    | serverExhausted => rw [hr] at h; simp at h
  | apiError m => rw [hd] at h; simp at h
  | pyError => rw [hd] at h; simp at h
  | serverExhausted => rw [hd] at h; simp at h

/-- Witness for C9: a one-deployment server (enabled and alerting both
true) and an empty rule-set collection. -/
theorem C9_witness :
    list_curated_rule_set_deployments none .null true true
        [mkPage "curatedRuleSetDeployments"
          [.obj [("enabled", .bool true), ("alerting", .bool true)]] none]
        [mkPage "curatedRuleSets" [] none]
      = .ok ([JVal.obj [("enabled", .bool true), ("alerting", .bool true)]]
          |>.filter (fun d => enabledTruthy d && alertingTruthy d))
    ∧ list_curated_rule_set_deployments none .null true true
        [mkPage "curatedRuleSetDeployments"
          [.obj [("enabled", .bool true), ("alerting", .bool true)]] none]
        [mkPage "curatedRuleSets" [] none]
      = .ok (([JVal.obj [("enabled", .bool true), ("alerting", .bool true)]]
          |>.filter enabledTruthy).filter alertingTruthy)
    ∧ list_curated_rule_set_deployments none .null true true
        [mkPage "curatedRuleSetDeployments"
          [.obj [("enabled", .bool true), ("alerting", .bool true)]] none]
        [mkPage "curatedRuleSets" [] none]
      = .ok (([JVal.obj [("enabled", .bool true), ("alerting", .bool true)]]
          |>.filter alertingTruthy).filter enabledTruthy) :=
  C9_filters_after_enrichment none .null
    [mkPage "curatedRuleSetDeployments"
      [.obj [("enabled", .bool true), ("alerting", .bool true)]] none]
    [mkPage "curatedRuleSets" [] none]
    [.obj [("enabled", .bool true), ("alerting", .bool true)]] rfl

theorem buildRequestItems_error (c : Client) (ds : List Jobj)
    (h : ∃ d ∈ ds, missingFields d ≠ []) :
    ∃ d ∈ ds, missingFields d ≠ [] ∧
      buildRequestItems c ds = .error
        ("Deployment missing required fields: "
          ++ pyReprStrList (missingFields d)) := by
  induction ds with
  | nil => simp at h
  | cons d rest ih =>
    by_cases hd : missingFields d = []
    · obtain ⟨d', hd', hm'⟩ := h
      rcases List.mem_cons.mp hd' with rfl | hmem
      · exact absurd hd hm'
      · obtain ⟨d'', hd'', hm'', herr⟩ := ih ⟨d', hmem, hm'⟩
        refine ⟨d'', List.mem_cons_of_mem _ hd'', hm'', ?_⟩
        simp only [buildRequestItems, hd, List.isEmpty_nil, Bool.not_true,
          if_false, ite_false, Bool.false_eq_true]
        rw [herr]
    · refine ⟨d, List.mem_cons_self d rest, hd, ?_⟩
      have hne : (missingFields d).isEmpty = false := by
        cases hmf : missingFields d with
        | nil => exact absurd hmf hd
        | cons a l => rfl
      simp only [buildRequestItems, hne]
      rfl

/-- **C5**: if any item of a batch deployment update lacks one of the
required fields (`category_id`, `rule_set_id`, `precision`, `enabled`), the
batch update returns a `ValueError` naming the missing fields of an
offending item, and no HTTP request is issued (the second component is
`none`): validation of the whole batch precedes the single POST, so
submission is all-or-nothing. -/
theorem C5_batch_update_validation (c : Client) (deployments : List Jobj)
    (resp : HttpResponse)
    (h : ∃ d ∈ deployments, missingFields d ≠ []) :
    (batch_update_curated_rule_set_deployments c deployments resp).2 = none
    ∧ ∃ d ∈ deployments, missingFields d ≠ [] ∧
        (batch_update_curated_rule_set_deployments c deployments resp).1
          = .valueError ("Deployment missing required fields: "
              ++ pyReprStrList (missingFields d)) := by
  obtain ⟨d, hd, hm, herr⟩ := buildRequestItems_error c deployments h
  unfold batch_update_curated_rule_set_deployments
  rw [herr]
  exact ⟨rfl, d, hd, hm, rfl⟩

/-- Witness for C5: a single-item batch missing `rule_set_id` yields a
`ValueError` naming exactly `["rule_set_id"]`, with no request issued. -/
theorem C5_witness :
    ((batch_update_curated_rule_set_deployments
        ⟨"b", "i", "p", "r", "c"⟩
        [[("category_id", .str "cat"), ("precision", .str "precise"),
          ("enabled", .bool true)]]
        { status := 200, text := "", json := .null }).2 = none
    ∧ ∃ d ∈ [[("category_id", JVal.str "cat"),
          ("precision", JVal.str "precise"), ("enabled", JVal.bool true)]],
        missingFields d ≠ [] ∧
        (batch_update_curated_rule_set_deployments
          ⟨"b", "i", "p", "r", "c"⟩
          [[("category_id", .str "cat"), ("precision", .str "precise"),
            ("enabled", .bool true)]]
          { status := 200, text := "", json := .null }).1
          = .valueError ("Deployment missing required fields: "
              ++ pyReprStrList (missingFields d)))
    ∧ missingFields [("category_id", JVal.str "cat"),
        ("precision", JVal.str "precise"), ("enabled", JVal.bool true)]
        = ["rule_set_id"] :=
  ⟨C5_batch_update_validation ⟨"b", "i", "p", "r", "c"⟩
      [[("category_id", .str "cat"), ("precision", .str "precise"),
        ("enabled", .bool true)]]
      { status := 200, text := "", json := .null }
      ⟨_, List.mem_singleton.mpr rfl, by decide⟩,
    rfl⟩

/-- **C6**: `create_data_export_v2` raises a `ValueError` before any
network request exactly when the bucket path is empty or lacks the
`projects/` prefix, or the end time is not strictly after the start time,
or `export_all_logs` is set together with a non-empty `log_types`, or
`export_all_logs` is unset with an empty `log_types`; when no validation
error is raised the POST payload is built and sent. -/
theorem C6_create_validation (c : Client) (gcs_bucket : String)
    (start_time end_time : Int) (log_types : List String)
    (export_all_logs : Bool) (resp : HttpResponse) :
    ((create_data_export_v2 c gcs_bucket start_time end_time log_types
        export_all_logs resp).1.isValueError = true
      ↔ (gcs_bucket = "" ∨ ¬ pyStartswith gcs_bucket "projects/"
          ∨ end_time ≤ start_time
          ∨ (export_all_logs = true ∧ log_types ≠ [])
          ∨ (export_all_logs = false ∧ log_types = [])))
    ∧ ((create_data_export_v2 c gcs_bucket start_time end_time log_types
        export_all_logs resp).1.isValueError = true →
        (create_data_export_v2 c gcs_bucket start_time end_time log_types
          export_all_logs resp).2 = none) := by
  unfold create_data_export_v2
  split_ifs with h1 h2 h3 h4 h5 <;>
    simp_all [PyOutcome.isValueError, List.length_eq_zero]

/-- Witness for C6: an empty bucket raises a validation error and no
request is issued. -/
theorem C6_witness :
    (create_data_export_v2 ⟨"b", "i", "p", "r", "c"⟩ "" 0 1 []
        true { status := 200, text := "", json := .null }).2 = none :=
  (C6_create_validation ⟨"b", "i", "p", "r", "c"⟩ "" 0 1 [] true
      { status := 200, text := "", json := .null }).2 (by decide)

theorem updateDataExportFinish_snd_eq (P : Jobj) (M : List String)
    (lt : Option (List String)) (resp : HttpResponse) (payload : Jobj)
    (mask : List String)
    (h : (updateDataExportFinish P M lt resp).2 = some (payload, mask)) :
    payload = lt.elim P
      (fun lts => pySet P "includeLogTypes" (.arr (lts.map .str)))
    ∧ mask = lt.elim M (fun _ => M ++ ["includeLogTypes"]) := by
  unfold updateDataExportFinish at h
  cases lt <;> dsimp only at h ⊢ <;> split_ifs at h <;>
    simp_all [Option.elim]

/-- **C7**: `update_data_export_v2` raises a `ValueError` before any
request when the caller supplies no field to update; and whenever a PATCH
request is issued, its update mask lists exactly the names of the supplied
fields (among `startTime`, `endTime`, `gcsBucket`, `includeLogTypes`, in
code order) and the JSON payload carries values for exactly those
fields. -/
theorem C7_update_mask_fields (data_export_id : String)
    (start_time end_time : Option Int) (gcs_bucket : Option String)
    (log_types : Option (List String)) (resp : HttpResponse) :
    (suppliedFields start_time end_time gcs_bucket log_types = [] →
      update_data_export_v2 data_export_id start_time end_time gcs_bucket
          log_types resp
        = (.valueError "At least one field to update must be provided.",
            none))
    ∧ (∀ payload mask,
        (update_data_export_v2 data_export_id start_time end_time gcs_bucket
            log_types resp).2 = some (payload, mask) →
        mask = suppliedFields start_time end_time gcs_bucket log_types
        ∧ payload.map Prod.fst
          = suppliedFields start_time end_time gcs_bucket log_types) := by
  constructor
  · intro hsup
    rcases start_time with _ | st
    · rcases end_time with _ | et
      · rcases log_types with _ | lts
        · rcases gcs_bucket with _ | b
          · rfl
          · have hb : b = "" := by
              by_contra hb
              simp [suppliedFields, hb] at hsup
            subst hb
            rfl
        · simp [suppliedFields] at hsup
      · simp [suppliedFields] at hsup
    · simp [suppliedFields] at hsup
  · intro payload mask h2
    rcases gcs_bucket with _ | b
    · rcases start_time with _ | st <;> rcases end_time with _ | et <;>
        rcases log_types with _ | lts <;>
          simp only [update_data_export_v2] at h2 <;>
            obtain ⟨rfl, rfl⟩ :=
              updateDataExportFinish_snd_eq _ _ _ _ _ _ h2 <;>
              simp [suppliedFields, pySet, hasKey, pyGet]
    · by_cases hb : b = ""
      · subst hb
        rcases start_time with _ | st <;> rcases end_time with _ | et <;>
          rcases log_types with _ | lts <;>
            (simp only [update_data_export_v2] at h2;
             rw [if_neg (by simp)] at h2) <;>
              obtain ⟨rfl, rfl⟩ :=
                updateDataExportFinish_snd_eq _ _ _ _ _ _ h2 <;>
                simp [suppliedFields, pySet, hasKey, pyGet]
      · by_cases hbs : pyStartswith b "projects/" = true
        · rcases start_time with _ | st <;> rcases end_time with _ | et <;>
            rcases log_types with _ | lts <;>
              (simp only [update_data_export_v2] at h2;
               rw [if_pos hb, if_neg (by simp [hbs])] at h2) <;>
                obtain ⟨rfl, rfl⟩ :=
                  updateDataExportFinish_snd_eq _ _ _ _ _ _ h2 <;>
                  simp [suppliedFields, pySet, hasKey, pyGet, hb]
        · rcases start_time with _ | st <;> rcases end_time with _ | et <;>
            rcases log_types with _ | lts <;>
              simp [update_data_export_v2, hb, hbs] at h2

/-- Witness for C7: with no field supplied, the update raises the
`ValueError` and issues no PATCH. -/
theorem C7_witness :
    update_data_export_v2 "id" none none none none
        { status := 200, text := "", json := .null }
      = (.valueError "At least one field to update must be provided.",
          none) :=
  (C7_update_mask_fields "id" none none none none
      { status := 200, text := "", json := .null }).1 rfl

/-- **C2 (code bug)**: `create_data_export_v2` (`data_export_v2.py` lines
185-187) returns `response.json()` without checking the HTTP status, in
contradiction with its own docstring ("Raises: APIError: If the API request
fails") and with every sibling operation in the module: on a 500 response
with body `"boom"` it returns the parsed error body as a normal result
instead of raising an `APIError` carrying the body text. -/
theorem C2_create_ignores_http_status :
    (create_data_export_v2 ⟨"b", "i", "p", "r", "c"⟩ "projects/p/buckets/b"
        0 1 [] true ⟨500, "boom", .obj [("error", .str "boom")]⟩).1
      = .ok (.obj [("error", .str "boom")])
    ∧ (create_data_export_v2 ⟨"b", "i", "p", "r", "c"⟩ "projects/p/buckets/b"
        0 1 [] true ⟨500, "boom", .obj [("error", .str "boom")]⟩).2
      = some [("startTime", .str (strftimeZ 0)),
          ("endTime", .str (strftimeZ 1)),
          ("gcsBucket", .str "projects/p/buckets/b"),
          ("includeLogTypes", .arr [])] :=
  ⟨rfl, rfl⟩
